import Mathlib

/-!
Shallow embedding of the commitment-core contract
(`contracts/commitment_core/src/lib.rs`) of the Commitlabs-Contracts
repository, together with theorems settling the frozen claims about it.

Modelling conventions:
* Soroban `Address` values are modelled as `Nat` identifiers; `String`
  keys and statuses are Lean `String`s.
* `i128` values are modelled as unbounded `Int` and `u32`/`u64` values as
  `Nat`.  The contract is built in the usual Soroban configuration where an
  arithmetic overflow traps (aborts the transaction) rather than wrapping,
  and the code comments state the `i128` widening is chosen so that the
  arithmetic does not overflow; no claim concerns behaviour at the extreme
  magnitudes where a trap would occur, so the embedding uses exact integers.
  Rust's `/` on `i128` truncates towards zero and is therefore rendered as
  `Int.tdiv` (never as the Euclidean `/` of `Int`).
* The persistent store is a `LedgerState`: an association list of
  `Commitment` records keyed by commitment id (writes shadow earlier
  entries, matching key-value overwrite), the token balances of the asset
  contracts (keyed by asset and holder), and the instance-storage slot
  holding the NFT-contract address.
* The external collaborators are modelled as follows: `require_auth` and
  token-transfer authorization are oracles in `LedgerEnv`; the token
  `transfer` moves balances and fails when the source balance is
  insufficient or the source did not authorize it.  Event emission has no
  observable effect on any claim and is not modelled.
* A contract invocation either returns the updated state (`Except.ok`) or
  fails with `Fail` — a typed `CommitmentError` (Rust `Err(...)`) or a
  `trap` (Rust `panic!` / failed `assert!` / `unwrap`).  In either failure
  case the Soroban host rolls the transaction back, so a failing call
  yields no new state.
-/

namespace CommitmentCore

structure CommitmentRules where
  duration_days : Nat
  max_loss_percent : Nat
  commitment_type : String
  early_exit_penalty : Nat
  min_fee_threshold : Int
deriving Repr, DecidableEq

structure Commitment where
  commitment_id : String
  owner : Nat
  nft_token_id : Nat
  rules : CommitmentRules
  amount : Int
  asset_address : Nat
  created_at : Nat
  expires_at : Nat
  current_value : Int
  status : String
deriving Repr, DecidableEq

inductive CommitmentError where
  | NotFound
  | AlreadySettled
  | NotExpired
  | Unauthorized
  | InvalidRules
  | InsufficientBalance
  | TransferFailed
  | InvalidAmount
  | AssetNotFound
deriving Repr, DecidableEq

/-- Failure of a contract invocation: a typed contract error returned with
`Err`, or a trap (`panic!`, failed `assert!`, `unwrap` of `None`). -/
inductive Fail where
  | contractErr : CommitmentError → Fail
  | trap : String → Fail
deriving Repr, DecidableEq

structure LedgerState where
  commitments : List (String × Commitment)
  balances : List ((Nat × Nat) × Int)
  nft_contract : Option Nat
deriving Repr, DecidableEq

/-- Ambient execution environment: ledger timestamp, the contract's own
address, and the authorization oracles of the collaborator services. -/
structure LedgerEnv where
  timestamp : Nat
  contract_address : Nat
  require_auth_ok : Nat → Bool
  transfer_auth_ok : Nat → Bool

def storeLookup : List (String × Commitment) → String → Option Commitment
  | [], _ => none
  | (k, c) :: rest, id => if k = id then some c else storeLookup rest id

def balLookup : List ((Nat × Nat) × Int) → Nat × Nat → Option Int
  | [], _ => none
  | (k, v) :: rest, key => if k = key then some v else balLookup rest key

/-- `read_commitment` of the source: persistent-storage lookup under the
`("Commit", commitment_id)` key. -/
def read_commitment (s : LedgerState) (commitment_id : String) : Option Commitment :=
  storeLookup s.commitments commitment_id

/-- `set_commitment` of the source: persistent-storage write under the
`("Commit", commitment_id)` key (the new entry shadows any old one). -/
def set_commitment (s : LedgerState) (c : Commitment) : LedgerState :=
  { s with commitments := (c.commitment_id, c) :: s.commitments }

/-- `get_balance` of the source: `token::Client::balance`, `0` for a
holder with no recorded balance. -/
def get_balance (s : LedgerState) (asset holder : Nat) : Int :=
  (balLookup s.balances (asset, holder)).getD 0

def setBalance (s : LedgerState) (asset holder : Nat) (v : Int) : LedgerState :=
  { s with balances := ((asset, holder), v) :: s.balances }

/-- `token::Client::transfer`: moves `amt` from `src` to `dst`, failing if
the source balance is insufficient. -/
def token_transfer (s : LedgerState) (asset src dst : Nat) (amt : Int) :
    Option LedgerState :=
  if get_balance s asset src < amt then none
  else
    let s1 := setBalance s asset src (get_balance s asset src - amt)
    some (setBalance s1 asset dst (get_balance s1 asset dst + amt))

/-- `transfer_from_user_to_contract` of the source: asserts `amount > 0`
and a sufficient user balance, then performs the token transfer (which the
token contract rejects when `src` has not authorized it). -/
def transfer_from_user_to_contract (env : LedgerEnv) (s : LedgerState)
    (asset src : Nat) (amt : Int) : Option LedgerState :=
  if amt ≤ 0 then none
  else if get_balance s asset src < amt then none
  else if env.transfer_auth_ok src then token_transfer s asset src env.contract_address amt
  else none

/-- `transfer_from_contract_to_user` of the source: asserts `amount > 0`
and a sufficient contract balance, then performs the token transfer (the
current contract authorizes its own transfers). -/
def transfer_from_contract_to_user (env : LedgerEnv) (s : LedgerState)
    (asset dst : Nat) (amt : Int) : Option LedgerState :=
  if amt ≤ 0 then none
  else if get_balance s asset env.contract_address < amt then none
  else token_transfer s asset env.contract_address dst amt

/-- `verify_sufficient_balance` of the source. -/
def verify_sufficient_balance (s : LedgerState) (asset user : Nat) (amt : Int) :
    Except CommitmentError Unit :=
  if get_balance s asset user < amt then .error .InsufficientBalance else .ok ()

/-- `create_commitment` of the source, line for line: authorization,
rule/amount validation, balance check, escrow transfer, constant id
`"commitment_"`, expiry computation, NFT-contract `unwrap`, record
creation and store. -/
def create_commitment (env : LedgerEnv) (s : LedgerState) (owner : Nat)
    (amount : Int) (asset_address : Nat) (rules : CommitmentRules) :
    Except Fail (String × LedgerState) :=
  if ¬ env.require_auth_ok owner then .error (.trap "require_auth failed")
  else if rules.duration_days = 0 then .error (.contractErr .InvalidRules)
  else if rules.max_loss_percent > 100 then .error (.contractErr .InvalidRules)
  else if amount ≤ 0 then .error (.contractErr .InvalidAmount)
  else
    match verify_sufficient_balance s asset_address owner amount with
    | .error e => .error (.contractErr e)
    | .ok _ =>
      match transfer_from_user_to_contract env s asset_address owner amount with
      | none => .error (.trap "transfer failed")
      | some s1 =>
        let timestamp := env.timestamp
        let commitment_id := "commitment_"
        let duration_seconds := rules.duration_days * 24 * 60 * 60
        let expires_at := timestamp + duration_seconds
        match s.nft_contract with
        | none => .error (.trap "nft contract missing")
        | some _ =>
          let c : Commitment :=
            { commitment_id := commitment_id
              owner := owner
              nft_token_id := 1
              rules := rules
              amount := amount
              asset_address := asset_address
              created_at := timestamp
              expires_at := expires_at
              current_value := amount
              status := "active" }
          .ok (commitment_id, set_commitment s1 c)

/-- `get_commitment` of the source: `unwrap_or_else(|| panic!("Commitment
not found"))` — a trap, not the typed `NotFound` error. -/
def get_commitment (s : LedgerState) (commitment_id : String) : Except Fail Commitment :=
  match read_commitment s commitment_id with
  | some c => .ok c
  | none => .error (.trap "Commitment not found")

/-- `check_violations` of the source.  The returned pair carries the
(unchanged) state so that the read-only nature of the operation is a
provable statement rather than a typing convention. -/
def check_violations (env : LedgerEnv) (s : LedgerState) (commitment_id : String) :
    Except Fail (Bool × LedgerState) :=
  match read_commitment s commitment_id with
  | none => .error (.trap "Commitment not found")
  | some c =>
    if c.status ≠ "active" then .ok (false, s)
    else
      let current_time := env.timestamp
      let loss_amount := c.amount - c.current_value
      let loss_percent : Int :=
        if c.amount > 0 then (loss_amount * 100).tdiv c.amount else 0
      let max_loss : Int := (c.rules.max_loss_percent : Int)
      let loss_violated : Bool := decide (loss_percent > max_loss)
      let duration_violated : Bool := decide (current_time ≥ c.expires_at)
      .ok (loss_violated || duration_violated, s)

/-- `get_violation_details` of the source: the same predicate decomposed,
with no status guard, plus the remaining time. -/
def get_violation_details (env : LedgerEnv) (s : LedgerState) (commitment_id : String) :
    Except Fail ((Bool × Bool × Bool × Int × Nat) × LedgerState) :=
  match read_commitment s commitment_id with
  | none => .error (.trap "Commitment not found")
  | some c =>
    let current_time := env.timestamp
    let loss_amount := c.amount - c.current_value
    let loss_percent : Int :=
      if c.amount > 0 then (loss_amount * 100).tdiv c.amount else 0
    let max_loss : Int := (c.rules.max_loss_percent : Int)
    let loss_violated : Bool := decide (loss_percent > max_loss)
    let duration_violated : Bool := decide (current_time ≥ c.expires_at)
    let time_remaining : Nat :=
      if current_time < c.expires_at then c.expires_at - current_time else 0
    let has_violations := loss_violated || duration_violated
    .ok ((has_violations, loss_violated, duration_violated, loss_percent, time_remaining), s)

/-- `settle` of the source: `NotFound`, then the expiry check
(`NotExpired`), then the status check (`AlreadySettled`), then the payout
of `current_value` (when positive) and the status write. -/
def settle (env : LedgerEnv) (s : LedgerState) (commitment_id : String) :
    Except Fail LedgerState :=
  match read_commitment s commitment_id with
  | none => .error (.contractErr .NotFound)
  | some c =>
    if env.timestamp < c.expires_at then .error (.contractErr .NotExpired)
    else if c.status ≠ "active" then .error (.contractErr .AlreadySettled)
    else
      let settlement_amount := c.current_value
      match (if settlement_amount > 0 then
               transfer_from_contract_to_user env s c.asset_address c.owner settlement_amount
             else some s) with
      | none => .error (.trap "transfer failed")
      | some s1 => .ok (set_commitment s1 { c with status := "settled" })

/-- `early_exit` of the source: caller authorization, `NotFound`, owner
check (`Unauthorized`), status check (`AlreadySettled`), penalty
arithmetic in truncating `i128` division, payout of the remainder (when
positive) and the status write. -/
def early_exit (env : LedgerEnv) (s : LedgerState) (commitment_id : String)
    (caller : Nat) : Except Fail LedgerState :=
  if ¬ env.require_auth_ok caller then .error (.trap "require_auth failed")
  else
    match read_commitment s commitment_id with
    | none => .error (.contractErr .NotFound)
    | some c =>
      if caller ≠ c.owner then .error (.contractErr .Unauthorized)
      else if c.status ≠ "active" then .error (.contractErr .AlreadySettled)
      else
        let penalty_percent : Int := (c.rules.early_exit_penalty : Int)
        let penalty_amount := (c.current_value * penalty_percent).tdiv 100
        let remaining_amount := c.current_value - penalty_amount
        match (if remaining_amount > 0 then
                 transfer_from_contract_to_user env s c.asset_address c.owner remaining_amount
               else some s) with
        | none => .error (.trap "transfer failed")
        | some s1 => .ok (set_commitment s1 { c with status := "early_exit" })

/-- State reached by `settle`; the pre-state when the call fails
(rollback). -/
def runSettle (env : LedgerEnv) (s : LedgerState) (commitment_id : String) : LedgerState :=
  match settle env s commitment_id with
  | .ok s1 => s1
  | .error _ => s

/-- State reached by `early_exit`; the pre-state when the call fails
(rollback). -/
def runEarlyExit (env : LedgerEnv) (s : LedgerState) (commitment_id : String)
    (caller : Nat) : LedgerState :=
  match early_exit env s commitment_id caller with
  | .ok s1 => s1
  | .error _ => s

/-- State reached by `create_commitment`; the pre-state when the call
fails (rollback). -/
def runCreate (env : LedgerEnv) (s : LedgerState) (owner : Nat) (amount : Int)
    (asset_address : Nat) (rules : CommitmentRules) : LedgerState :=
  match create_commitment env s owner amount asset_address rules with
  | .ok (_, s1) => s1
  | .error _ => s

/-- Loss percentage exactly as the specification words it: floor division,
with a defensive `0` when `amount = 0`. -/
def loss_percent_spec (amount current_value : Int) : Int :=
  if amount = 0 then 0 else ((amount - current_value) * 100).fdiv amount

/-- Early-exit penalty exactly as the specification words it:
`floor(current_value * early_exit_penalty / 100)`. -/
def penalty_amount_spec (current_value : Int) (early_exit_penalty : Nat) : Int :=
  (current_value * (early_exit_penalty : Int)).fdiv 100

/-! Concrete fixtures used to witness and to refute claims. -/

/-- Test environment: ledger time `500`, contract address `0`, every
caller authenticated, every token transfer authorized. -/
def envW : LedgerEnv :=
  { timestamp := 500, contract_address := 0,
    require_auth_ok := fun _ => true, transfer_auth_ok := fun _ => true }

/-- Same environment at a ledger time past `cW`'s expiry. -/
def envLate : LedgerEnv := { envW with timestamp := 3000000 }

/-- Environment in which the token contract rejects every transfer. -/
def envNoTok : LedgerEnv := { envW with transfer_auth_ok := fun _ => false }

def rulesW : CommitmentRules :=
  { duration_days := 30, max_loss_percent := 20, commitment_type := "balanced",
    early_exit_penalty := 10, min_fee_threshold := 0 }

/-- Rules with the zero-duration sentinel (rejected by `create_commitment`). -/
def rulesZeroDur : CommitmentRules := { rulesW with duration_days := 0 }

/-- Rules with an out-of-range loss ceiling (rejected by `create_commitment`). -/
def rulesBadLoss : CommitmentRules := { rulesW with max_loss_percent := 150 }

/-- An active commitment: owner `1`, asset `7`, principal `1000`,
expiring at `2592000`. -/
def cW : Commitment :=
  { commitment_id := "commitment_", owner := 1, nft_token_id := 1, rules := rulesW,
    amount := 1000, asset_address := 7, created_at := 0, expires_at := 2592000,
    current_value := 1000, status := "active" }

/-- Store holding `cW`, with the escrow (address `0`) funded with `1000`. -/
def sW : LedgerState :=
  { commitments := [("commitment_", cW)],
    balances := [((7, 0), 1000), ((7, 1), 0)], nft_contract := some 9 }

/-- `cW` already settled. -/
def cX : Commitment := { cW with status := "settled" }

/-- Store holding the settled `cX`. -/
def sX : LedgerState := { sW with commitments := [("commitment_", cX)] }

/-- `cW` marked to market at `700` (a 30% drawdown). -/
def cV : Commitment := { cW with current_value := 700 }

/-- Store holding `cV`. -/
def sV : LedgerState := { sW with commitments := [("commitment_", cV)] }

/-- A settled commitment whose stored values violate the duration rule
(`expires_at = 10` while the test clock reads `500`). -/
def cY : Commitment := { cW with status := "settled", expires_at := 10 }

/-- Store holding `cY`. -/
def sY : LedgerState := { sW with commitments := [("commitment_", cY)] }

/-- Store with no commitments, two funded depositors (`1` and `2`) and an
unfunded escrow. -/
def sEmpty : LedgerState :=
  { commitments := [],
    balances := [((7, 1), 500), ((7, 2), 500), ((7, 0), 0)], nft_contract := some 9 }

/-- State after `early_exit` of `cW` out of `sW`. -/
def sAfterExit : LedgerState := runEarlyExit envW sW "commitment_" 1

/-- State after the first of the two creations used against claim C2. -/
def sCreate1 : LedgerState := runCreate envW sEmpty 1 100 7 rulesW

/-- State after the second of the two creations used against claim C2. -/
def sCreate2 : LedgerState := runCreate envW sCreate1 2 200 7 rulesW

end CommitmentCore

deriving instance DecidableEq for Except

namespace CommitmentCore

theorem tdiv_lt_iff_fdiv {q b m : Int} (hb : 0 < b) (hm : 0 ≤ m) :
    m < q.tdiv b ↔ m < q.fdiv b := by
  rcases le_or_lt 0 q with hq | hq
  · rw [Int.fdiv_eq_tdiv hq hb.le]
  · have h2 : 0 ≤ (-q).tdiv b := Int.tdiv_nonneg (by omega) hb.le
    have h3 : (-q).tdiv b = -(q.tdiv b) := Int.neg_tdiv q b
    have h4 : q.fdiv b < 0 := Int.fdiv_neg' hq hb
    constructor <;> intro h <;> omega

theorem read_commitment_set_commitment (s : LedgerState) (c : Commitment) :
    read_commitment (set_commitment s c) c.commitment_id = some c := by
  simp [read_commitment, set_commitment, storeLookup]

theorem get_balance_set_commitment (s : LedgerState) (c : Commitment) (a h : Nat) :
    get_balance (set_commitment s c) a h = get_balance s a h := rfl

theorem get_balance_setBalance_self (s : LedgerState) (asset holder : Nat) (v : Int) :
    get_balance (setBalance s asset holder v) asset holder = v := by
  simp [get_balance, setBalance, balLookup]

theorem get_balance_setBalance_ne (s : LedgerState) {asset holder asset2 holder2 : Nat}
    (v : Int) (hne : (asset, holder) ≠ (asset2, holder2)) :
    get_balance (setBalance s asset holder v) asset2 holder2 = get_balance s asset2 holder2 := by
  simp [get_balance, setBalance, balLookup, hne]

theorem transfer_from_contract_to_user_eq (env : LedgerEnv) (s : LedgerState)
    (asset dst : Nat) (amt : Int) (hpos : 0 < amt)
    (hbal : amt ≤ get_balance s asset env.contract_address) :
    transfer_from_contract_to_user env s asset dst amt =
      some (setBalance
        (setBalance s asset env.contract_address (get_balance s asset env.contract_address - amt))
        asset dst
        (get_balance
          (setBalance s asset env.contract_address (get_balance s asset env.contract_address - amt))
          asset dst + amt)) := by
  unfold transfer_from_contract_to_user token_transfer
  rw [if_neg (by omega), if_neg (by omega), if_neg (by omega)]

theorem transfer_from_contract_to_user_spec (env : LedgerEnv) (s : LedgerState)
    (asset dst : Nat) (amt : Int) (hpos : 0 < amt)
    (hbal : amt ≤ get_balance s asset env.contract_address)
    (hne : env.contract_address ≠ dst) :
    ∃ s1, transfer_from_contract_to_user env s asset dst amt = some s1 ∧
      get_balance s1 asset dst = get_balance s asset dst + amt ∧
      get_balance s1 asset env.contract_address = get_balance s asset env.contract_address - amt ∧
      s1.commitments = s.commitments := by
  have hk : (asset, env.contract_address) ≠ (asset, dst) := fun h => hne (congrArg Prod.snd h)
  refine ⟨_, transfer_from_contract_to_user_eq env s asset dst amt hpos hbal, ?_, ?_, rfl⟩
  · rw [get_balance_setBalance_self, get_balance_setBalance_ne _ _ hk]
  · rw [get_balance_setBalance_ne _ _ (Ne.symm hk), get_balance_setBalance_self]

end CommitmentCore

namespace CommitmentCore

/-- C1 counterexample: out of `sW`, `early_exit` succeeds before maturity;
a later `settle` on the same commitment, still before `expires_at`, fails
with `NotExpired`, not with `AlreadySettled` — refuting "any later call to
settle or to early_exit ... fails with the AlreadySettled error,
regardless of the current time". -/
theorem C1_counterexample :
    early_exit envW sW "commitment_" 1 = .ok sAfterExit ∧
    read_commitment sAfterExit "commitment_" = some { cW with status := "early_exit" } ∧
    settle envW sAfterExit "commitment_" = .error (.contractErr .NotExpired) ∧
    settle envW sAfterExit "commitment_" ≠ .error (.contractErr .AlreadySettled) := by
  refine ⟨rfl, rfl, rfl, ?_⟩
  decide

/-- C1 (amended): once the stored status of a commitment is no longer
`"active"`, a later `early_exit` by the owner fails with `AlreadySettled`;
a later `settle` fails with `AlreadySettled` when the commitment is
expired, and with `NotExpired` (the expiry check precedes the status
check) when it is not; in no case does either succeed. -/
theorem C1_theorem (env : LedgerEnv) (s : LedgerState) (id : String) (c : Commitment)
    (hread : read_commitment s id = some c) (hstat : c.status ≠ "active") :
    (env.require_auth_ok c.owner = true →
      early_exit env s id c.owner = .error (.contractErr .AlreadySettled)) ∧
    (c.expires_at ≤ env.timestamp →
      settle env s id = .error (.contractErr .AlreadySettled)) ∧
    (env.timestamp < c.expires_at →
      settle env s id = .error (.contractErr .NotExpired)) := by
  refine ⟨?_, ?_, ?_⟩
  · intro hauth
    simp [early_exit, hauth, hread, hstat]
  · intro hexp
    simp [settle, hread, hstat, Nat.not_lt.mpr hexp]
  · intro hexp
    simp [settle, hread, hexp]

/-- C1 witness: the amended statement applied to the settled commitment
`cX`, before and after its expiry. -/
theorem C1_witness :
    early_exit envW sX "commitment_" 1 = .error (.contractErr .AlreadySettled) ∧
    settle envW sX "commitment_" = .error (.contractErr .NotExpired) ∧
    settle envLate sX "commitment_" = .error (.contractErr .AlreadySettled) :=
  ⟨(C1_theorem envW sX "commitment_" cX rfl (by decide)).1 rfl,
   (C1_theorem envW sX "commitment_" cX rfl (by decide)).2.2 (by decide),
   (C1_theorem envLate sX "commitment_" cX rfl (by decide)).2.1 (by decide)⟩

/-- C2: the id-generation stub returns the constant `"commitment_"`: two
successful creations return the same id and the second lookup under that
id yields the second owner's record — the first record is no longer
reachable.  (The spec itself flags the constant id as a defect, so this is
a bug in the code, not in the claim.) -/
theorem C2_theorem :
    create_commitment envW sEmpty 1 100 7 rulesW = .ok ("commitment_", sCreate1) ∧
    create_commitment envW sCreate1 2 200 7 rulesW = .ok ("commitment_", sCreate2) ∧
    (read_commitment sCreate2 "commitment_").map Commitment.owner = some 2 :=
  ⟨rfl, rfl, rfl⟩

/-- C8: `check_violations` never writes: it either traps on a missing
commitment (leaving no state) or returns its verdict with the store
exactly as it found it. -/
theorem C8_theorem (env : LedgerEnv) (s : LedgerState) (id : String) :
    check_violations env s id = .error (.trap "Commitment not found") ∨
    ∃ b, check_violations env s id = .ok (b, s) := by
  unfold check_violations
  cases hread : read_commitment s id with
  | none => exact Or.inl rfl
  | some c =>
    by_cases hst : c.status = "active"
    · simp [hst]
    · simp [hst]

/-- C9 counterexample: `get_commitment` on an absent id traps with the
panic message `"Commitment not found"`; it does not return the typed
`NotFound` contract error the claim names. -/
theorem C9_counterexample :
    get_commitment sEmpty "missing" = .error (.trap "Commitment not found") ∧
    get_commitment sEmpty "missing" ≠ .error (.contractErr .NotFound) := by
  refine ⟨rfl, ?_⟩
  decide

/-- C9 (amended): on an absent commitment id `get_commitment` fails by
panicking with `"Commitment not found"` (a trap, not the typed `NotFound`
contract error); on a stored commitment it returns the record unchanged. -/
theorem C9_theorem (s : LedgerState) (id : String) :
    (read_commitment s id = none →
      get_commitment s id = .error (.trap "Commitment not found")) ∧
    (∀ c, read_commitment s id = some c → get_commitment s id = .ok c) := by
  constructor
  · intro h
    simp [get_commitment, h]
  · intro c h
    simp [get_commitment, h]

/-- C9 witness: the amended statement applied to `sW` at a stored and at
an absent id. -/
theorem C9_witness :
    get_commitment sW "commitment_" = .ok cW ∧
    get_commitment sW "missing" = .error (.trap "Commitment not found") :=
  ⟨(C9_theorem sW "commitment_").2 cW rfl, (C9_theorem sW "missing").1 rfl⟩

/-- C10: on the settled-but-expired commitment `cY` at ledger time `500`,
`check_violations` returns `false` (status guard) while
`get_violation_details` reports `has_violations = true` for the same state
and time — the details query applies no status guard. -/
theorem C10_theorem :
    cY.status ≠ "active" ∧
    check_violations envW sY "commitment_" = .ok (false, sY) ∧
    get_violation_details envW sY "commitment_" = .ok ((true, false, true, 0, 0), sY) := by
  refine ⟨?_, rfl, rfl⟩
  decide

end CommitmentCore

namespace CommitmentCore

/-- C3: for a stored commitment with `amount ≥ 0` (the creation invariant
guarantees `amount > 0`), `check_violations` returns `false` when the
status is not `"active"`, and otherwise exactly the disjunction of the
loss violation — with `loss_percent` given by the specification's floor
formula `loss_percent_spec`, defensively `0` at `amount = 0` — and the
duration violation `now ≥ expires_at`. -/
theorem C3_theorem (env : LedgerEnv) (s : LedgerState) (id : String) (c : Commitment)
    (hread : read_commitment s id = some c) (hamt : 0 ≤ c.amount) :
    check_violations env s id =
      .ok ((if c.status = "active" then
              (decide ((c.rules.max_loss_percent : Int) <
                  loss_percent_spec c.amount c.current_value)
                || decide (c.expires_at ≤ env.timestamp))
            else false), s) := by
  unfold check_violations
  rw [hread]
  by_cases hst : c.status = "active"
  · simp only [hst, ne_eq, not_true_eq_false, if_false, if_true]
    have hloss :
        decide ((c.rules.max_loss_percent : Int) <
            (if c.amount > 0 then ((c.amount - c.current_value) * 100).tdiv c.amount else 0)) =
        decide ((c.rules.max_loss_percent : Int) <
            loss_percent_spec c.amount c.current_value) := by
      rcases eq_or_lt_of_le hamt with h0 | hpos
      · rw [if_neg (by omega)]
        unfold loss_percent_spec
        rw [if_pos h0.symm]
      · rw [if_pos hpos]
        unfold loss_percent_spec
        rw [if_neg (by omega)]
        exact decide_eq_decide.mpr (tdiv_lt_iff_fdiv hpos (Int.natCast_nonneg _))
    simp only [ge_iff_le, gt_iff_lt] at hloss ⊢
    rw [hloss]
  · simp [hst]

/-- C3 witness: on `cV` (30% drawdown against a 20% ceiling, not yet
expired) `check_violations` reports a violation. -/
theorem C3_witness :
    check_violations envW sV "commitment_" = .ok (true, sV) := by
  have h := C3_theorem envW sV "commitment_" cV rfl (by decide)
  rw [h]
  decide

end CommitmentCore

namespace CommitmentCore

/-- C5: for a stored commitment, `settle` fails with `NotExpired` whenever
`now < expires_at`; with `AlreadySettled` when expired but no longer
active; and on an expired active commitment (with a solvent escrow held by
a contract address distinct from the owner) it succeeds, pays the full
`current_value` (when positive) from the escrow to the owner with no
penalty deducted, and stores the record with status `"settled"`. -/
theorem C5_theorem (env : LedgerEnv) (s : LedgerState) (id : String) (c : Commitment)
    (hread : read_commitment s id = some c) (hcid : c.commitment_id = id) :
    (env.timestamp < c.expires_at →
      settle env s id = .error (.contractErr .NotExpired)) ∧
    (c.expires_at ≤ env.timestamp → c.status ≠ "active" →
      settle env s id = .error (.contractErr .AlreadySettled)) ∧
    (c.expires_at ≤ env.timestamp → c.status = "active" →
      c.owner ≠ env.contract_address →
      (0 < c.current_value →
        c.current_value ≤ get_balance s c.asset_address env.contract_address) →
      settle env s id = .ok (runSettle env s id) ∧
      read_commitment (runSettle env s id) id = some { c with status := "settled" } ∧
      (0 < c.current_value →
        get_balance (runSettle env s id) c.asset_address c.owner
          = get_balance s c.asset_address c.owner + c.current_value ∧
        get_balance (runSettle env s id) c.asset_address env.contract_address
          = get_balance s c.asset_address env.contract_address - c.current_value) ∧
      (c.current_value ≤ 0 →
        ∀ a h, get_balance (runSettle env s id) a h = get_balance s a h)) := by
  subst hcid
  refine ⟨?_, ?_, ?_⟩
  · intro hlt
    simp [settle, hread, hlt]
  · intro hge hst
    simp [settle, hread, hst, Nat.not_lt.mpr hge]
  · intro hge hst hown hbal
    have hnlt : ¬ env.timestamp < c.expires_at := Nat.not_lt.mpr hge
    by_cases hcv : 0 < c.current_value
    · obtain ⟨s1, ht, hb1, hb2, hcomm⟩ :=
        transfer_from_contract_to_user_spec env s c.asset_address c.owner c.current_value
          hcv (hbal hcv) (Ne.symm hown)
      have hsettle : settle env s c.commitment_id
          = .ok (set_commitment s1 { c with status := "settled" }) := by
        simp [settle, hread, hnlt, hst, hcv, ht]
      have hrun : runSettle env s c.commitment_id
          = set_commitment s1 { c with status := "settled" } := by
        simp [runSettle, hsettle]
      refine ⟨by rw [hsettle, hrun], ?_, ?_, ?_⟩
      · rw [hrun]
        exact read_commitment_set_commitment s1 _
      · intro _
        exact ⟨by rw [hrun, get_balance_set_commitment, hb1],
               by rw [hrun, get_balance_set_commitment, hb2]⟩
      · intro hle
        exact absurd hcv (not_lt.mpr hle)
    · have hsettle : settle env s c.commitment_id
          = .ok (set_commitment s { c with status := "settled" }) := by
        simp [settle, hread, hnlt, hst, hcv]
      have hrun : runSettle env s c.commitment_id
          = set_commitment s { c with status := "settled" } := by
        simp [runSettle, hsettle]
      refine ⟨by rw [hsettle, hrun], ?_, ?_, ?_⟩
      · rw [hrun]
        exact read_commitment_set_commitment s _
      · intro h
        exact absurd h hcv
      · intro _ a h
        rw [hrun, get_balance_set_commitment]

/-- C5 witness: `settle` on the unexpired `cW` fails `NotExpired`; on the
expired settled `cX` fails `AlreadySettled`; on the expired active `cW` it
succeeds, pays out the full `1000` and marks the record settled. -/
theorem C5_witness :
    settle envW sW "commitment_" = .error (.contractErr .NotExpired) ∧
    settle envLate sX "commitment_" = .error (.contractErr .AlreadySettled) ∧
    settle envLate sW "commitment_" = .ok (runSettle envLate sW "commitment_") ∧
    read_commitment (runSettle envLate sW "commitment_") "commitment_"
      = some { cW with status := "settled" } ∧
    get_balance (runSettle envLate sW "commitment_") cW.asset_address cW.owner = 1000 ∧
    get_balance (runSettle envLate sW "commitment_") cW.asset_address envLate.contract_address
      = 0 := by
  have h1 := (C5_theorem envW sW "commitment_" cW rfl rfl).1 (by decide)
  have h2 := (C5_theorem envLate sX "commitment_" cX rfl rfl).2.1 (by decide) (by decide)
  obtain ⟨ha, hb, hc, _⟩ :=
    (C5_theorem envLate sW "commitment_" cW rfl rfl).2.2 (by decide) rfl (by decide)
      (fun _ => by decide)
  obtain ⟨ho, he⟩ := hc (by decide)
  exact ⟨h1, h2, ha, hb, by rw [ho]; decide, by rw [he]; decide⟩

end CommitmentCore

namespace CommitmentCore

/-- C4: for a stored active commitment with `current_value ≥ 0` (the
creation invariant), `early_exit` by a caller other than the owner fails
with `Unauthorized` and on a non-active commitment fails with
`AlreadySettled`; otherwise (with a solvent escrow held by a contract
address distinct from the owner) it succeeds with
`penalty_amount = floor(current_value * early_exit_penalty / 100)`
(`penalty_amount_spec`) and `remaining = current_value - penalty_amount`,
transfers `remaining` to the owner when it is positive — the escrow
keeping exactly the penalty — and stores the record with status
`"early_exit"`.  At `current_value = 1000` and a 10% penalty this gives
penalty `100` and remainder `900`. -/
theorem C4_theorem (env : LedgerEnv) (s : LedgerState) (id : String) (c : Commitment)
    (caller : Nat) (hread : read_commitment s id = some c) (hcid : c.commitment_id = id)
    (hauth : env.require_auth_ok caller = true) :
    (caller ≠ c.owner →
      early_exit env s id caller = .error (.contractErr .Unauthorized)) ∧
    (caller = c.owner → c.status ≠ "active" →
      early_exit env s id caller = .error (.contractErr .AlreadySettled)) ∧
    (caller = c.owner → c.status = "active" → 0 ≤ c.current_value →
      c.owner ≠ env.contract_address →
      c.current_value - penalty_amount_spec c.current_value c.rules.early_exit_penalty ≤
        get_balance s c.asset_address env.contract_address →
      early_exit env s id caller = .ok (runEarlyExit env s id caller) ∧
      read_commitment (runEarlyExit env s id caller) id
        = some { c with status := "early_exit" } ∧
      (0 < c.current_value - penalty_amount_spec c.current_value c.rules.early_exit_penalty →
        get_balance (runEarlyExit env s id caller) c.asset_address c.owner
          = get_balance s c.asset_address c.owner
            + (c.current_value - penalty_amount_spec c.current_value c.rules.early_exit_penalty) ∧
        get_balance (runEarlyExit env s id caller) c.asset_address env.contract_address
          = get_balance s c.asset_address env.contract_address
            - (c.current_value - penalty_amount_spec c.current_value c.rules.early_exit_penalty)) ∧
      (c.current_value - penalty_amount_spec c.current_value c.rules.early_exit_penalty ≤ 0 →
        ∀ a h, get_balance (runEarlyExit env s id caller) a h = get_balance s a h)) ∧
    penalty_amount_spec 1000 10 = 100 ∧
    (1000 : Int) - penalty_amount_spec 1000 10 = 900 := by
  subst hcid
  refine ⟨?_, ?_, ?_, by decide, by decide⟩
  · intro hne
    simp [early_exit, hauth, hread, hne]
  · intro heq hst
    subst heq
    simp [early_exit, hauth, hread, hst]
  · intro heq hst hcv0 hown hbal
    subst heq
    have hpen : penalty_amount_spec c.current_value c.rules.early_exit_penalty
        = (c.current_value * (c.rules.early_exit_penalty : Int)).tdiv 100 :=
      Int.fdiv_eq_tdiv (mul_nonneg hcv0 (Int.natCast_nonneg _)) (by norm_num)
    by_cases hr : 0 < c.current_value -
        penalty_amount_spec c.current_value c.rules.early_exit_penalty
    · obtain ⟨s1, ht, hb1, hb2, hcomm⟩ :=
        transfer_from_contract_to_user_spec env s c.asset_address c.owner
          (c.current_value - penalty_amount_spec c.current_value c.rules.early_exit_penalty)
          hr hbal (Ne.symm hown)
      have hr2 : 0 < c.current_value -
          (c.current_value * (c.rules.early_exit_penalty : Int)).tdiv 100 := by
        rw [← hpen]
        exact hr
      have ht2 : transfer_from_contract_to_user env s c.asset_address c.owner
          (c.current_value - (c.current_value * (c.rules.early_exit_penalty : Int)).tdiv 100)
          = some s1 := by
        rw [← hpen]
        exact ht
      have hexit : early_exit env s c.commitment_id c.owner
          = .ok (set_commitment s1 { c with status := "early_exit" }) := by
        simp [early_exit, hauth, hread, hst, hr2, ht2]
      have hrun : runEarlyExit env s c.commitment_id c.owner
          = set_commitment s1 { c with status := "early_exit" } := by
        simp [runEarlyExit, hexit]
      refine ⟨by rw [hexit, hrun], ?_, ?_, ?_⟩
      · rw [hrun]
        exact read_commitment_set_commitment s1 _
      · intro _
        exact ⟨by rw [hrun, get_balance_set_commitment, hb1],
               by rw [hrun, get_balance_set_commitment, hb2]⟩
      · intro hle
        exact absurd hr (not_lt.mpr hle)
    · have hr2 : ¬ 0 < c.current_value -
          (c.current_value * (c.rules.early_exit_penalty : Int)).tdiv 100 := by
        rw [← hpen]
        exact hr
      have hexit : early_exit env s c.commitment_id c.owner
          = .ok (set_commitment s { c with status := "early_exit" }) := by
        simp [early_exit, hauth, hread, hst, hr2]
      have hrun : runEarlyExit env s c.commitment_id c.owner
          = set_commitment s { c with status := "early_exit" } := by
        simp [runEarlyExit, hexit]
      refine ⟨by rw [hexit, hrun], ?_, ?_, ?_⟩
      · rw [hrun]
        exact read_commitment_set_commitment s _
      · intro h
        exact absurd h hr
      · intro _ a h
        rw [hrun, get_balance_set_commitment]

/-- C4 witness: on `sW`, a stranger (caller `2`) is `Unauthorized`; on the
settled `cX` the owner gets `AlreadySettled`; on the active `cW` the owner
exits early, receiving `900` while the escrow keeps the `100` penalty. -/
theorem C4_witness :
    early_exit envW sW "commitment_" 2 = .error (.contractErr .Unauthorized) ∧
    early_exit envW sX "commitment_" 1 = .error (.contractErr .AlreadySettled) ∧
    early_exit envW sW "commitment_" 1 = .ok (runEarlyExit envW sW "commitment_" 1) ∧
    read_commitment (runEarlyExit envW sW "commitment_" 1) "commitment_"
      = some { cW with status := "early_exit" } ∧
    get_balance (runEarlyExit envW sW "commitment_" 1) cW.asset_address cW.owner = 900 ∧
    get_balance (runEarlyExit envW sW "commitment_" 1) cW.asset_address envW.contract_address
      = 100 := by
  have h1 := (C4_theorem envW sW "commitment_" cW 2 rfl rfl rfl).1 (by decide)
  have h2 := (C4_theorem envW sX "commitment_" cX 1 rfl rfl rfl).2.1 rfl (by decide)
  obtain ⟨ha, hb, hc, _⟩ :=
    (C4_theorem envW sW "commitment_" cW 1 rfl rfl rfl).2.2.1 rfl rfl (by decide)
      (by decide) (by decide)
  obtain ⟨ho, he⟩ := hc (by decide)
  exact ⟨h1, h2, ha, hb, by rw [ho]; decide, by rw [he]; decide⟩

end CommitmentCore

namespace CommitmentCore

/-- C6: `create_commitment` rejects a zero duration and an out-of-range
loss ceiling with `InvalidRules`, a non-positive amount with
`InvalidAmount`, an underfunded owner with `InsufficientBalance`, and a
rejected token transfer with a trap; on every failure the call leaves the
store exactly as it was — no commitment record is persisted. -/
theorem C6_theorem (env : LedgerEnv) (s : LedgerState) (owner : Nat) (amount : Int)
    (asset : Nat) (rules : CommitmentRules)
    (hauth : env.require_auth_ok owner = true) :
    (rules.duration_days = 0 →
      create_commitment env s owner amount asset rules = .error (.contractErr .InvalidRules)) ∧
    (100 < rules.max_loss_percent →
      create_commitment env s owner amount asset rules = .error (.contractErr .InvalidRules)) ∧
    (rules.duration_days ≠ 0 → rules.max_loss_percent ≤ 100 → amount ≤ 0 →
      create_commitment env s owner amount asset rules = .error (.contractErr .InvalidAmount)) ∧
    (rules.duration_days ≠ 0 → rules.max_loss_percent ≤ 100 → 0 < amount →
      get_balance s asset owner < amount →
      create_commitment env s owner amount asset rules
        = .error (.contractErr .InsufficientBalance)) ∧
    (env.transfer_auth_ok owner = false → rules.duration_days ≠ 0 →
      rules.max_loss_percent ≤ 100 → 0 < amount → amount ≤ get_balance s asset owner →
      create_commitment env s owner amount asset rules = .error (.trap "transfer failed")) ∧
    (∀ f, create_commitment env s owner amount asset rules = .error f →
      runCreate env s owner amount asset rules = s) := by
  refine ⟨?_, ?_, ?_, ?_, ?_, ?_⟩
  · intro hd
    simp [create_commitment, hauth, hd]
  · intro hm
    by_cases hd : rules.duration_days = 0 <;>
      simp [create_commitment, hauth, hd, hm]
  · intro hd hm hle
    simp [create_commitment, hauth, hd, hle, show ¬ 100 < rules.max_loss_percent by omega]
  · intro hd hm hpos hlt
    simp [create_commitment, verify_sufficient_balance, hauth, hd, hlt,
      show ¬ 100 < rules.max_loss_percent by omega, show ¬ amount ≤ 0 by omega]
  · intro htok hd hm hpos hbal
    simp [create_commitment, verify_sufficient_balance, transfer_from_user_to_contract,
      hauth, hd, htok, show ¬ 100 < rules.max_loss_percent by omega,
      show ¬ amount ≤ 0 by omega, show ¬ get_balance s asset owner < amount by omega]
  · intro f h
    simp [runCreate, h]

/-- C6 witness: each rejection at a concrete input on the empty store
`sEmpty`, and the transfer-failure case persisting nothing. -/
theorem C6_witness :
    create_commitment envW sEmpty 1 100 7 rulesZeroDur = .error (.contractErr .InvalidRules) ∧
    create_commitment envW sEmpty 1 100 7 rulesBadLoss = .error (.contractErr .InvalidRules) ∧
    create_commitment envW sEmpty 1 (-5) 7 rulesW = .error (.contractErr .InvalidAmount) ∧
    create_commitment envW sEmpty 1 1000000 7 rulesW
      = .error (.contractErr .InsufficientBalance) ∧
    create_commitment envNoTok sEmpty 1 100 7 rulesW = .error (.trap "transfer failed") ∧
    runCreate envNoTok sEmpty 1 100 7 rulesW = sEmpty := by
  refine ⟨(C6_theorem envW sEmpty 1 100 7 rulesZeroDur rfl).1 rfl,
    (C6_theorem envW sEmpty 1 100 7 rulesBadLoss rfl).2.1 (by decide),
    (C6_theorem envW sEmpty 1 (-5) 7 rulesW rfl).2.2.1 (by decide) (by decide) (by decide),
    (C6_theorem envW sEmpty 1 1000000 7 rulesW rfl).2.2.2.1 (by decide) (by decide)
      (by decide) (by decide),
    (C6_theorem envNoTok sEmpty 1 100 7 rulesW rfl).2.2.2.2.1 rfl (by decide) (by decide)
      (by decide) (by decide),
    (C6_theorem envNoTok sEmpty 1 100 7 rulesW rfl).2.2.2.2.2 (.trap "transfer failed") ?_⟩
  exact (C6_theorem envNoTok sEmpty 1 100 7 rulesW rfl).2.2.2.2.1 rfl (by decide) (by decide)
    (by decide) (by decide)

/-- C7: a successful `create_commitment` returns the (stub) id
`"commitment_"` and persists under it an `"active"` record carrying the
passed owner, amount, asset and rules, with `current_value = amount`,
`created_at` the ledger time and
`expires_at = created_at + duration_days * 86400`. -/
theorem C7_theorem (env : LedgerEnv) (s : LedgerState) (owner : Nat) (amount : Int)
    (asset : Nat) (rules : CommitmentRules)
    (hauth : env.require_auth_ok owner = true)
    (hdur : rules.duration_days ≠ 0) (hmax : rules.max_loss_percent ≤ 100)
    (hamt : 0 < amount) (hbal : amount ≤ get_balance s asset owner)
    (htok : env.transfer_auth_ok owner = true) (hnft : s.nft_contract.isSome = true) :
    create_commitment env s owner amount asset rules
      = .ok ("commitment_", runCreate env s owner amount asset rules) ∧
    read_commitment (runCreate env s owner amount asset rules) "commitment_" =
      some { commitment_id := "commitment_", owner := owner, nft_token_id := 1,
             rules := rules, amount := amount, asset_address := asset,
             created_at := env.timestamp,
             expires_at := env.timestamp + rules.duration_days * 86400,
             current_value := amount, status := "active" } := by
  obtain ⟨n, hn⟩ := Option.isSome_iff_exists.mp hnft
  have h86400 : rules.duration_days * 24 * 60 * 60 = rules.duration_days * 86400 := by
    omega
  obtain ⟨s2, hs2⟩ : ∃ s2, transfer_from_user_to_contract env s asset owner amount
      = some s2 :=
    ⟨_, by
      unfold transfer_from_user_to_contract token_transfer
      rw [if_neg (by omega), if_neg (by omega), if_pos htok, if_neg (by omega)]⟩
  have hcreate : create_commitment env s owner amount asset rules = .ok ("commitment_",
      set_commitment s2
        { commitment_id := "commitment_", owner := owner, nft_token_id := 1,
          rules := rules, amount := amount, asset_address := asset,
          created_at := env.timestamp,
          expires_at := env.timestamp + rules.duration_days * 24 * 60 * 60,
          current_value := amount, status := "active" }) := by
    simp [create_commitment, verify_sufficient_balance, hauth, hdur, hs2, hn,
      show ¬ 100 < rules.max_loss_percent by omega, show ¬ amount ≤ 0 by omega,
      show ¬ get_balance s asset owner < amount by omega]
  have hrun : runCreate env s owner amount asset rules
      = set_commitment s2
        { commitment_id := "commitment_", owner := owner, nft_token_id := 1,
          rules := rules, amount := amount, asset_address := asset,
          created_at := env.timestamp,
          expires_at := env.timestamp + rules.duration_days * 24 * 60 * 60,
          current_value := amount, status := "active" } := by
    simp [runCreate, hcreate]
  constructor
  · rw [hcreate, hrun]
  · rw [hrun, ← h86400]
    exact read_commitment_set_commitment s2 _

/-- C7 witness: creating with owner `1`, amount `100`, asset `7` and
`rulesW` at time `500` stores the expected active record expiring at
`500 + 30 * 86400`. -/
theorem C7_witness :
    create_commitment envW sEmpty 1 100 7 rulesW
      = .ok ("commitment_", runCreate envW sEmpty 1 100 7 rulesW) ∧
    read_commitment (runCreate envW sEmpty 1 100 7 rulesW) "commitment_" =
      some { commitment_id := "commitment_", owner := 1, nft_token_id := 1,
             rules := rulesW, amount := 100, asset_address := 7, created_at := 500,
             expires_at := 500 + 30 * 86400, current_value := 100, status := "active" } :=
  C7_theorem envW sEmpty 1 100 7 rulesW rfl (by decide) (by decide) (by decide)
    (by decide) rfl rfl

end CommitmentCore
